import Mathlib

/-
Formal model of the transcription pipeline in src/main.py.

Python strings are modelled as lists of characters (`Str`).  The Python
string operations used by the script (`in`, `str.find`, `str.replace`,
`str.split`, `str.strip`, slicing) are defined below with Python's
semantics.  The script's functions `clean_llama_output`,
`summarize_with_llama` (lines 196-205, the part after the external
process ran), `transcribe_with_whisper` (lines 101-115, after the
external process ran), `extract_drive_file_id`, `download_audio` (its
file-system effects) and the job loop `process_all_jobs` are then
translated, with external collaborators (gdown, ffmpeg, whisper-cli,
llama-cli, the HTTP backend) represented by their observable outcomes.
-/

/-- Python strings, modelled as lists of characters. -/
abbrev Str := List Char

/-- Character list of a Lean string literal. -/
def ofStr (s : String) : Str := s.data

/-- Whitespace characters stripped by Python `str.strip()` (ASCII subset;
the script's data is ASCII/Latin text, where this coincides with Python). -/
def pyWs (c : Char) : Bool :=
  c == ' ' || c == '\t' || c == '\n' || c == '\r' || c == '\x0b' || c == '\x0c'

/-- Python `s.lstrip()`: drop leading whitespace. -/
def lstrip (s : Str) : Str := s.dropWhile pyWs

/-- Python `s.rstrip()`: drop trailing whitespace. -/
def rstrip (s : Str) : Str := (s.reverse.dropWhile pyWs).reverse

/-- Python `s.strip()`: drop leading and trailing whitespace. -/
def strip (s : Str) : Str := rstrip (lstrip s)

/-- Python `s.find(pat)` restricted to a found result: index of the first
occurrence of `pat` in `s`, or `none` when `pat` does not occur
(Python returns -1 there; the script always guards `find` by `pat in s`). -/
def find? (pat : Str) : Str → Option Nat
  | [] => if pat.isPrefixOf ([] : Str) then some 0 else none
  | a :: t => if pat.isPrefixOf (a :: t) then some 0 else (find? pat t).map (· + 1)

/-- Python `pat in s`: substring containment. -/
def containsSub (s pat : Str) : Bool := (find? pat s).isSome

/-- Fuelled worker for `removeAll`; one unit of fuel per character of the
scanned string is always enough. -/
def removeAllFuel : Nat → Str → Str → Str
  | 0, _, s => s
  | _ + 1, old, [] => if old.isPrefixOf ([] : Str) then [] else []
  | fuel + 1, old, c :: rest =>
    if old ≠ [] ∧ old.isPrefixOf (c :: rest) then
      removeAllFuel fuel old ((c :: rest).drop old.length)
    else
      c :: removeAllFuel fuel old rest

/-- Python `s.replace(old, "")` for nonempty `old`: delete every
(leftmost, non-overlapping) occurrence of `old` in `s`.  For `old = []`
Python's `s.replace("", "")` returns `s`, which the `fuel = 0` guard and
the `old ≠ []` test reproduce. -/
def removeAll (old s : Str) : Str := removeAllFuel s.length old s

/-- Fuelled worker for `splitOnSub`. -/
def splitOnFuel : Nat → Str → Str → List Str
  | 0, _, s => [s]
  | fuel + 1, sep, s =>
    match find? sep s with
    | none => [s]
    | some i => s.take i :: splitOnFuel fuel sep (s.drop (i + sep.length))

/-- Python `s.split(sep)` for nonempty `sep`: split at every occurrence
of `sep`; always returns a nonempty list. -/
def splitOnSub (sep s : Str) : List Str :=
  if sep = [] then [s] else splitOnFuel (s.length + 1) sep s

/-- Start marker `"(truncated)"` of `clean_llama_output` (line 135). -/
def start_marker1 : Str := ofStr "(truncated)"

/-- First entry of the `start_prefixes` list (line 138). -/
def startPre1 : Str := ofStr "Resumé (skriv kun på dansk"

/-- Second entry of the `start_prefixes` list (line 139); note that
`startPre1` is an initial segment of it, so the loop in the code can
never reach it. -/
def startPre2 : Str := ofStr "Resumé (skriv kun på dansk,"

/-- The `start_prefixes` list of line 137. -/
def start_pres : List Str := [startPre1, startPre2]

/-- End marker `"[ Prompt:"` of `clean_llama_output` (line 154). -/
def end_marker : Str := ofStr "[ Prompt:"

/-- Lines 130-132 of `clean_llama_output`: if the submitted prompt occurs
in the text, remove it (`str.replace` removes every occurrence). -/
def drop_prompt_echo (prompt text : Str) : Str :=
  if containsSub text prompt then removeAll prompt text else text

/-- Lines 134-151 of `clean_llama_output`: if `"(truncated)"` occurs, keep
everything after its first occurrence; otherwise try the two
`start_prefixes` in order and keep everything after the first occurrence
of the first one that occurs. -/
def cut_start_marker (text : Str) : Str :=
  match find? start_marker1 text with
  | some i => text.drop (i + start_marker1.length)
  | none =>
    match find? startPre1 text with
    | some i => text.drop (i + startPre1.length)
    | none =>
      match find? startPre2 text with
      | some i => text.drop (i + startPre2.length)
      | none => text

/-- Lines 153-157 of `clean_llama_output`: if `"[ Prompt:"` occurs, keep
everything before its first occurrence. -/
def cut_end_marker (text : Str) : Str :=
  match find? end_marker text with
  | some i => text.take i
  | none => text

/-- Lines 119-159: the output sanitizer `clean_llama_output(raw, prompt)`. -/
def clean_llama_output (raw prompt : Str) : Str :=
  strip (cut_end_marker (cut_start_marker (drop_prompt_echo prompt raw)))

/-- The placeholder `"... [truncated]"` that `textwrap.shorten` inserts at
the cut point in `summarize_with_llama` (line 166). -/
def truncation_placeholder : Str := ofStr "... [truncated]"

/-- Fixed prompt text before the (truncated) transcript (lines 168-171). -/
def prompt_head : Str :=
  ofStr "Du er en assistent, der skriver klare mødereferater.\n\nGivet følgende mødetransskription, lav et resumé.\n\nTransskription:\n"

/-- Fixed prompt text after the (truncated) transcript (lines 171-175). -/
def prompt_tail : Str :=
  ofStr "\n\nResumé (skriv kun på dansk, men behold engelske artikelnavne, bogtitler, projektnavne og tekniske termer uændret. Eksempler: Bayesian Inference, Deep Learning, Nature, Science, Perl, Conarro, Tsugu, LExO, causality, Actor–network theory, exponential organizations, problem tree, solution tree, problem solution tree):\n"

/-- The summarization prompt built in lines 168-175 around the truncated
transcript. -/
def build_prompt (truncated : Str) : Str := prompt_head ++ truncated ++ prompt_tail

/-- Observable outcome of a completed external process run
(`subprocess.run` with `capture_output=True`). -/
structure EngineResult where
  rc : Nat
  stdout : Str
  stderr : Str
deriving DecidableEq

/-- The exceptions a job body can raise, one per `raise`/failing call in
the per-job pipeline: gdown failure (line 57), `check=True` transcode
failure (line 75), `RuntimeError("Whisper failed: ...")` (line 103),
`RuntimeError("Transcript file not found: ...")` (line 109),
`RuntimeError("Llama summarization timed out ...")` (line 199),
`RuntimeError("Llama failed: ...")` (line 202), and
`raise_for_status` on submission (line 218). -/
inductive JobErr
  | download
  | transcode
  | whisperFailed (stderr : Str)
  | transcriptMissing
  | llamaTimeout
  | llamaFailed (stderr : Str)
  | submission
deriving DecidableEq

/-- Lines 101-115 of `transcribe_with_whisper`, after the whisper-cli
process ran: `rc` is its exit status, `stderr` its diagnostic stream, and
`artifact` the content of the expected output file `meeting_row.txt`
(`none` when the file does not exist).  Nonzero exit raises; a missing
artifact raises; an existing artifact is read and stripped (line 111). -/
def transcribe_with_whisper (rc : Nat) (stderr : Str) (artifact : Option Str) :
    Except JobErr Str :=
  if rc ≠ 0 then Except.error (JobErr.whisperFailed stderr)
  else
    match artifact with
    | none => Except.error JobErr.transcriptMissing
    | some content => Except.ok (strip content)

/-- Lines 196-205 of `summarize_with_llama`, after the prompt was built:
`run = none` models `subprocess.TimeoutExpired`; otherwise a nonzero exit
raises, and a zero exit returns `clean_llama_output(stdout, prompt)`
unconditionally.  The caller `sh` stands for `textwrap.shorten` applied
to the transcript (line 166), a Python-stdlib collaborator. -/
def summarize_with_llama (sh : Str → Str) (transcript : Str)
    (run : Option EngineResult) : Except JobErr Str :=
  match run with
  | none => Except.error JobErr.llamaTimeout
  | some r =>
    if r.rc ≠ 0 then Except.error (JobErr.llamaFailed r.stderr)
    else Except.ok (clean_llama_output r.stdout (build_prompt (sh transcript)))

deriving instance DecidableEq for Except

/-- Python `IndexError`, the only exception `extract_drive_file_id` can
raise on its own. -/
inductive PyErr
  | indexError
deriving DecidableEq

/-- Python `parts[-2]` (line 46): the second-to-last element when the list
has at least two elements, `IndexError` otherwise. -/
def pyNegIndex2 (parts : List Str) : Except PyErr Str :=
  if 2 ≤ parts.length then
    match parts[parts.length - 2]? with
    | some r => Except.ok r
    | none => Except.error PyErr.indexError
  else Except.error PyErr.indexError

/-- Lines 37-46: `extract_drive_file_id(url)`.  If `"id="` occurs, take
the text between the first `"id="` and the following `"&"`; otherwise
split on `"/"` and return the element after the first `"d"` component
when there is one; otherwise fall back to `parts[-2]`. -/
def extract_drive_file_id (url : Str) : Except PyErr Str :=
  if containsSub url (ofStr "id=") then
    match (splitOnSub (ofStr "id=") url)[1]? with
    | none => Except.error PyErr.indexError
    | some s =>
      match (splitOnSub (ofStr "&") s)[0]? with
      | none => Except.error PyErr.indexError
      | some r => Except.ok r
  else
    let parts := splitOnSub (ofStr "/") url
    if parts.contains (ofStr "d") then
      let idx := parts.indexOf (ofStr "d")
      if idx + 1 < parts.length then
        match parts[idx + 1]? with
        | some r => Except.ok r
        | none => Except.error PyErr.indexError
      else pyNegIndex2 parts
    else pyNegIndex2 parts

/-- Files the script writes under `downloads/` for the job of a given
row: the raw download `meeting_row.input` (line 55), the converted
`meeting_row.wav` (line 65) and whisper's transcript `meeting_row.txt`
(line 106). -/
inductive FileRef
  | raw (row : Nat)
  | wav (row : Nat)
  | txt (row : Nat)
deriving DecidableEq

/-- Observable behaviour of the external collaborators during one job:
whether gdown completed (line 57), whether the ffmpeg conversion with
`check=True` exited zero (line 75), whisper-cli's exit status and stderr
(line 101), the content of the transcript artifact it left (`none` when
absent), the llama-cli run (`none` models a timeout, line 198), and
whether the HTTP submission succeeded (line 218). -/
structure ExtBehavior where
  downloadOk : Bool
  transcodeOk : Bool
  whisperRc : Nat
  whisperStderr : Str
  transcriptFile : Option Str
  llamaRun : Option EngineResult
  submitOk : Bool
deriving DecidableEq

/-- Lines 51-78: file-system effects and result of `download_audio`.
gdown writes the raw file (line 57); on a successful conversion ffmpeg
writes the wav (line 75) and the raw file is unlinked (line 77); when the
conversion raises (`check=True`), the unlink on line 77 never runs and
the raw file remains.  Returns the wav path on success. -/
def download_audio (row : Nat) (transcodeOk : Bool) :
    List FileRef × Except JobErr FileRef :=
  let fs := [FileRef.raw row]
  if transcodeOk then
    ((fs ++ [FileRef.wav row]).erase (FileRef.raw row), Except.ok (FileRef.wav row))
  else (fs, Except.error JobErr.transcode)

/-- Everything observable about one iteration of the job loop: the files
left in `downloads/` when the job ends, the audio inputs passed to the
transcription engine, and the job's outcome (the submitted
transcript/summary pair, or the exception caught at line 241). -/
structure JobTrace where
  files : List FileRef
  transcribeInputs : List FileRef
  result : Except JobErr (Str × Str)
deriving DecidableEq

/-- Lines 235-242: the body of one iteration of `process_all_jobs` for a
job with the given row, under external behaviour `b`: download and
convert, transcribe the single converted file, summarize, submit.  No
step deletes any file after `download_audio`; a raised exception stops
the body where it occurred. -/
def runJob (sh : Str → Str) (row : Nat) (b : ExtBehavior) : JobTrace :=
  if b.downloadOk then
    match download_audio row b.transcodeOk with
    | (fs, Except.error e) => JobTrace.mk fs [] (Except.error e)
    | (fs, Except.ok wav) =>
      match transcribe_with_whisper b.whisperRc b.whisperStderr b.transcriptFile with
      | Except.error e => JobTrace.mk fs [wav] (Except.error e)
      | Except.ok transcript =>
        let fs2 := FileRef.txt row :: fs
        match summarize_with_llama sh transcript b.llamaRun with
        | Except.error e => JobTrace.mk fs2 [wav] (Except.error e)
        | Except.ok summary =>
          if b.submitOk then JobTrace.mk fs2 [wav] (Except.ok (transcript, summary))
          else JobTrace.mk fs2 [wav] (Except.error JobErr.submission)
  else JobTrace.mk [] [] (Except.error JobErr.download)

/-- Outcome of one iteration of the outer loop: line 240 on success,
line 242 (the `except` branch recording the error) on failure. -/
inductive LoopEvent
  | completed (row : Nat)
  | failed (row : Nat) (e : JobErr)
deriving DecidableEq

/-- Lines 221-244: the outer loop of `process_all_jobs` over the sequence
of jobs the backend hands out (each with its row and the behaviour of the
externals during it).  Every job is processed: the `except Exception`
at line 241 catches the job's exception, records it, and the loop
continues with the next job. -/
def process_all_jobs (sh : Str → Str) (jobs : List (Nat × ExtBehavior)) :
    List LoopEvent :=
  jobs.map (fun jb =>
    match (runJob sh jb.1 jb.2).result with
    | Except.ok _ => LoopEvent.completed jb.1
    | Except.error e => LoopEvent.failed jb.1 e)

/-- A behaviour where every external step succeeds: the transcript
artifact holds `"hi"` and llama prints `"Et resumé."`. -/
def okBeh : ExtBehavior :=
  ExtBehavior.mk true true 0 (ofStr "") (some (ofStr "hi"))
    (some (EngineResult.mk 0 (ofStr "Et resumé.") (ofStr ""))) true

/-- A behaviour where whisper-cli exits nonzero with stderr `"boom"`. -/
def badWhisperBeh : ExtBehavior :=
  ExtBehavior.mk true true 1 (ofStr "boom") none none true

/-- A behaviour where every step succeeds but llama-cli prints nothing:
its stdout is empty, so the sanitized summary is empty. -/
def emptyLlamaBeh : ExtBehavior :=
  ExtBehavior.mk true true 0 (ofStr "") (some (ofStr "hi"))
    (some (EngineResult.mk 0 (ofStr "") (ofStr ""))) true

/-- A three-job queue whose middle job fails in the transcription engine. -/
def demoJobs : List (Nat × ExtBehavior) := [(1, okBeh), (2, badWhisperBeh), (3, okBeh)]

/-- A behaviour where the ffmpeg conversion fails (`check=True` raises). -/
def badTranscodeBeh : ExtBehavior :=
  ExtBehavior.mk true false 0 (ofStr "") none none true

/-- Head of a `dropWhile` result never satisfies the predicate. -/
theorem dropWhile_head_false {α} (p : α → Bool) (l : List α) (c : α) (t : List α)
    (h : l.dropWhile p = c :: t) : p c = false := by
  have hh := List.head?_dropWhile_not p l
  rw [h] at hh
  simpa using hh

/-- Applying `dropWhile` twice is the same as applying it once. -/
theorem dropWhile_idem {α} (p : α → Bool) (l : List α) :
    (l.dropWhile p).dropWhile p = l.dropWhile p := by
  cases h : l.dropWhile p with
  | nil => simp
  | cons c t =>
    have hc := dropWhile_head_false p l c t h
    simp [List.dropWhile_cons, hc]

/-- A `dropWhile` result is a `drop` of the input. -/
theorem dropWhile_eq_drop {α} (p : α → Bool) (l : List α) :
    ∃ n, l.dropWhile p = l.drop n := by
  induction l with
  | nil => exact ⟨0, rfl⟩
  | cons a t ih =>
    by_cases hp : p a
    · obtain ⟨n, hn⟩ := ih
      exact ⟨n + 1, by simp [List.dropWhile_cons, hp, hn]⟩
    · exact ⟨0, by simp [List.dropWhile_cons, hp]⟩

/-- An `rstrip` result is a `take` of the input. -/
theorem rstrip_eq_take (s : Str) : ∃ k, rstrip s = s.take k := by
  obtain ⟨n, hn⟩ := dropWhile_eq_drop pyWs s.reverse
  refine ⟨s.length - n, ?_⟩
  unfold rstrip
  rw [hn, List.drop_reverse, List.reverse_reverse]

/-- Strings starting with a non-whitespace character are `lstrip` fixed
points. -/
theorem lstrip_cons_keep (c : Char) (t : Str) (hc : pyWs c = false) :
    lstrip (c :: t) = c :: t := by
  simp [lstrip, List.dropWhile_cons, hc]

/-- The result of `rstrip` on an `lstrip` fixed point is still an
`lstrip` fixed point. -/
theorem lstrip_rstrip (u : Str) (hu : lstrip u = u) :
    lstrip (rstrip u) = rstrip u := by
  obtain ⟨k, hk⟩ := rstrip_eq_take u
  cases u with
  | nil =>
    rw [hk]
    simp [lstrip]
  | cons c t =>
    have hc : pyWs c = false := dropWhile_head_false pyWs (c :: t) c t hu
    rw [hk]
    cases k with
    | zero => simp [lstrip]
    | succ k' =>
      rw [List.take_succ_cons]
      exact lstrip_cons_keep c (t.take k') hc

/-- Applying `lstrip` twice is the same as applying it once. -/
theorem lstrip_idem (s : Str) : lstrip (lstrip s) = lstrip s := dropWhile_idem pyWs s

/-- Applying `rstrip` twice is the same as applying it once. -/
theorem rstrip_idem (s : Str) : rstrip (rstrip s) = rstrip s := by
  unfold rstrip
  rw [List.reverse_reverse, dropWhile_idem]

/-- Python `str.strip` is idempotent. -/
theorem strip_idem (s : Str) : strip (strip s) = strip s := by
  unfold strip
  rw [lstrip_rstrip (lstrip s) (lstrip_idem s), rstrip_idem]

/-- The sanitizer's output is already stripped. -/
theorem strip_clean (x p : Str) :
    strip (clean_llama_output x p) = clean_llama_output x p := by
  unfold clean_llama_output
  exact strip_idem _

/-- The index returned by `find?` is the index of the first occurrence:
the pattern occurs at no smaller index. -/
theorem find?_least (pat : Str) :
    ∀ (s : Str) (i : Nat), find? pat s = some i →
      ∀ j, j < i → pat.isPrefixOf (s.drop j) = false := by
  intro s
  induction s with
  | nil =>
    intro i h j hj
    by_cases hp : pat.isPrefixOf ([] : Str)
    · simp [find?, hp] at h
      omega
    · simp [find?, hp] at h
  | cons a t ih =>
    intro i h j hj
    by_cases hp : pat.isPrefixOf (a :: t)
    · simp [find?, hp] at h
      omega
    · simp [find?, hp] at h
      obtain ⟨i', hi', hii⟩ := h
      cases j with
      | zero =>
        rw [List.drop_zero]
        exact eq_false_of_ne_true hp
      | succ j' =>
        rw [List.drop_succ_cons]
        exact ih i' hi' j' (by omega)

/-- C1 (amended): the program performs no segmentation. Whenever the
download and conversion succeed, the transcription engine is invoked
exactly once for the job, and its input is the single converted WAV of
the whole resource, independent of the resource's duration and of any
segment size. -/
theorem single_transcription_of_whole_resource (sh : Str → Str) (row : Nat)
    (b : ExtBehavior) (h1 : b.downloadOk = true) (h2 : b.transcodeOk = true) :
    (runJob sh row b).transcribeInputs = [FileRef.wav row] := by
  simp only [runJob, h1, h2, if_true, download_audio, List.cons_append,
    List.nil_append, List.erase_cons_head]
  split
  · rfl
  · split
    · rfl
    · split <;> rfl

/-- C1 witness: the amended claim at a concrete all-success job. -/
theorem single_transcription_of_whole_resource_w :
    (runJob id 42 okBeh).transcribeInputs = [FileRef.wav 42] :=
  single_transcription_of_whole_resource id 42 okBeh rfl rfl

/-- C1 counterexample: for a resource of duration 3600 s and segment size
1800 s the claim demands `ceil(3600/1800) = 2` transcription-stage
invocations, each on one bounded segment; the pipeline performs exactly
one invocation and passes it the whole converted resource. -/
theorem no_segmentation_cex :
    (runJob id 7 okBeh).transcribeInputs = [FileRef.wav 7] ∧
    (3600 + 1800 - 1) / 1800 = 2 ∧
    (runJob id 7 okBeh).transcribeInputs.length ≠ (3600 + 1800 - 1) / 1800 := by
  decide

/-- C2 (amended): the sanitizer is not idempotent in general, but it is
idempotent on every input whose sanitized output contains neither the
prompt nor any start or end marker. -/
theorem clean_llama_output_idempotent_on_marker_free (x p : Str)
    (h1 : containsSub (clean_llama_output x p) p = false)
    (h2 : find? start_marker1 (clean_llama_output x p) = none)
    (h3 : find? startPre1 (clean_llama_output x p) = none)
    (h4 : find? startPre2 (clean_llama_output x p) = none)
    (h5 : find? end_marker (clean_llama_output x p) = none) :
    clean_llama_output (clean_llama_output x p) p = clean_llama_output x p := by
  have e1 : drop_prompt_echo p (clean_llama_output x p) = clean_llama_output x p := by
    simp [drop_prompt_echo, h1]
  have e2 : cut_start_marker (clean_llama_output x p) = clean_llama_output x p := by
    simp [cut_start_marker, h2, h3, h4]
  have e3 : cut_end_marker (clean_llama_output x p) = clean_llama_output x p := by
    simp [cut_end_marker, h5]
  calc clean_llama_output (clean_llama_output x p) p
      = strip (cut_end_marker (cut_start_marker (drop_prompt_echo p
          (clean_llama_output x p)))) := rfl
    _ = strip (clean_llama_output x p) := by rw [e1, e2, e3]
    _ = clean_llama_output x p := strip_clean x p

/-- C2 witness: idempotence on a concrete marker-free input. -/
theorem clean_llama_output_idempotent_on_marker_free_w :
    clean_llama_output (clean_llama_output (ofStr "hello") (ofStr "zz")) (ofStr "zz")
      = clean_llama_output (ofStr "hello") (ofStr "zz") :=
  clean_llama_output_idempotent_on_marker_free (ofStr "hello") (ofStr "zz")
    (by decide) (by decide) (by decide) (by decide) (by decide)

/-- C2 counterexample: sanitizing `"a(truncated)b(truncated)c"` once
yields `"b(truncated)c"`, which still contains the start marker, so a
second application cuts again and yields `"c"`: the sanitizer is not
idempotent. -/
theorem clean_llama_output_not_idempotent :
    clean_llama_output
        (clean_llama_output (ofStr "a(truncated)b(truncated)c") (ofStr "zz"))
        (ofStr "zz")
      ≠ clean_llama_output (ofStr "a(truncated)b(truncated)c") (ofStr "zz") := by
  decide

/-- C3 (amended): after a zero-exit generation run, summarization returns
the sanitized output unconditionally; there is no emptiness check and no
EmptyOutputError, so an empty sanitized summary is returned as a success
(and, in the pipeline, submitted). -/
theorem summarize_returns_cleaned_unconditionally (sh : Str → Str) (t : Str)
    (r : EngineResult) (h : r.rc = 0) :
    summarize_with_llama sh t (some r)
      = Except.ok (clean_llama_output r.stdout (build_prompt (sh t))) := by
  simp [summarize_with_llama, h]

/-- C3 witness: the amended claim at a concrete zero-exit run. -/
theorem summarize_returns_cleaned_unconditionally_w :
    summarize_with_llama id (ofStr "hi")
        (some (EngineResult.mk 0 (ofStr "Resumé tekst") (ofStr "")))
      = Except.ok (clean_llama_output (ofStr "Resumé tekst")
          (build_prompt (id (ofStr "hi")))) :=
  summarize_returns_cleaned_unconditionally id (ofStr "hi")
    (EngineResult.mk 0 (ofStr "Resumé tekst") (ofStr "")) rfl

/-- C3 counterexample: a zero-exit run whose output sanitizes to the
empty string makes `summarize_with_llama` return `ok ""` instead of
failing, and the job pipeline submits the empty summary. -/
theorem empty_summary_propagates :
    summarize_with_llama id (ofStr "hi")
        (some (EngineResult.mk 0 (ofStr "") (ofStr ""))) = Except.ok (ofStr "") ∧
    (runJob id 3 emptyLlamaBeh).result = Except.ok (ofStr "hi", ofStr "") := by
  decide

/-- C4 (amended): when a start marker occurs, the sanitizer keeps
everything after the FIRST occurrence of the first matching marker (the
returned index admits no smaller occurrence), not after the last one. -/
theorem clean_llama_output_cuts_first_occurrence (x p : Str) (i : Nat)
    (h0 : containsSub x p = false)
    (h1 : find? start_marker1 x = some i)
    (h2 : find? end_marker (x.drop (i + start_marker1.length)) = none) :
    clean_llama_output x p = strip (x.drop (i + start_marker1.length)) ∧
    ∀ j, j < i → start_marker1.isPrefixOf (x.drop j) = false := by
  constructor
  · have e1 : drop_prompt_echo p x = x := by simp [drop_prompt_echo, h0]
    have e2 : cut_start_marker x = x.drop (i + start_marker1.length) := by
      simp [cut_start_marker, h1]
    have e3 : cut_end_marker (x.drop (i + start_marker1.length))
        = x.drop (i + start_marker1.length) := by
      simp [cut_end_marker, h2]
    calc clean_llama_output x p
        = strip (cut_end_marker (cut_start_marker (drop_prompt_echo p x))) := rfl
      _ = strip (x.drop (i + start_marker1.length)) := by rw [e1, e2, e3]
  · exact find?_least start_marker1 x i h1

/-- C4 witness: the amended claim at a concrete input with two marker
occurrences, cut at the first occurrence (index 1). -/
theorem clean_llama_output_cuts_first_occurrence_w :
    clean_llama_output (ofStr "A(truncated)B(truncated)C") (ofStr "qq")
      = strip ((ofStr "A(truncated)B(truncated)C").drop (1 + start_marker1.length)) :=
  (clean_llama_output_cuts_first_occurrence (ofStr "A(truncated)B(truncated)C")
    (ofStr "qq") 1 (by decide) (by decide) (by decide)).1

/-- C4 counterexample: on `"A(truncated)B(truncated)C"` the claim demands
everything after the LAST occurrence, i.e. `"C"`; the sanitizer returns
`"B(truncated)C"`, which still contains the marker. -/
theorem cut_at_first_occurrence_cex :
    clean_llama_output (ofStr "A(truncated)B(truncated)C") (ofStr "zz")
      = ofStr "B(truncated)C" ∧
    containsSub (clean_llama_output (ofStr "A(truncated)B(truncated)C") (ofStr "zz"))
      start_marker1 = true ∧
    clean_llama_output (ofStr "A(truncated)B(truncated)C") (ofStr "zz") ≠ ofStr "C" := by
  decide

/-- C5 (amended): the sanitizer performs no control-code removal and no
whitespace collapsing; on any input containing no prompt occurrence and
no marker it returns the input with only surrounding whitespace trimmed,
so interior terminal escape sequences, carriage returns, backspaces and
spinner glyphs survive. -/
theorem clean_llama_output_trims_only (x p : Str)
    (h1 : containsSub x p = false)
    (h2 : find? start_marker1 x = none)
    (h3 : find? startPre1 x = none)
    (h4 : find? startPre2 x = none)
    (h5 : find? end_marker x = none) :
    clean_llama_output x p = strip x := by
  have e1 : drop_prompt_echo p x = x := by simp [drop_prompt_echo, h1]
  have e2 : cut_start_marker x = x := by simp [cut_start_marker, h2, h3, h4]
  have e3 : cut_end_marker x = x := by simp [cut_end_marker, h5]
  calc clean_llama_output x p
      = strip (cut_end_marker (cut_start_marker (drop_prompt_echo p x))) := rfl
    _ = strip x := by rw [e1, e2, e3]

/-- C5 witness: the amended claim at a concrete input embedding the
cursor-movement escape sequence `ESC [ 2 K`. -/
theorem clean_llama_output_trims_only_w :
    clean_llama_output (ofStr " a\x1b[2Kb ") (ofStr "zz") = strip (ofStr " a\x1b[2Kb ") :=
  clean_llama_output_trims_only (ofStr " a\x1b[2Kb ") (ofStr "zz")
    (by decide) (by decide) (by decide) (by decide) (by decide)

/-- C5 counterexample: a string embedding the cursor-movement escape
sequence `ESC [ 2 K` passes through the sanitizer unchanged and the
escape character is still present in the output. -/
theorem control_codes_survive :
    clean_llama_output (ofStr "a\x1b[2Kb") (ofStr "zz") = ofStr "a\x1b[2Kb" ∧
    '\x1b' ∈ clean_llama_output (ofStr "a\x1b[2Kb") (ofStr "zz") := by
  decide

/-- C6 (amended): a nonzero exit always fails carrying the diagnostic
stream, and an absent artifact is a hard failure; but an artifact that
exists and is empty is returned as an (empty, stripped) transcript, not
an error. -/
theorem transcribe_error_paths (rc : Nat) (err : Str) (artifact : Option Str) :
    (rc ≠ 0 →
      transcribe_with_whisper rc err artifact
        = Except.error (JobErr.whisperFailed err)) ∧
    (rc = 0 → artifact = none →
      transcribe_with_whisper rc err artifact
        = Except.error JobErr.transcriptMissing) ∧
    (∀ content, rc = 0 → artifact = some content →
      transcribe_with_whisper rc err artifact = Except.ok (strip content)) := by
  refine ⟨fun h => ?_, fun h h' => ?_, fun content h h' => ?_⟩
  · simp [transcribe_with_whisper, h]
  · simp [transcribe_with_whisper, h, h']
  · simp [transcribe_with_whisper, h, h']

/-- C6 witness: the three paths at concrete inputs. -/
theorem transcribe_error_paths_w :
    transcribe_with_whisper 1 (ofStr "boom") none
      = Except.error (JobErr.whisperFailed (ofStr "boom")) ∧
    transcribe_with_whisper 0 (ofStr "") none
      = Except.error JobErr.transcriptMissing ∧
    transcribe_with_whisper 0 (ofStr "") (some (ofStr " x "))
      = Except.ok (strip (ofStr " x ")) :=
  ⟨(transcribe_error_paths 1 (ofStr "boom") none).1 (by decide),
   (transcribe_error_paths 0 (ofStr "") none).2.1 rfl rfl,
   (transcribe_error_paths 0 (ofStr "") (some (ofStr " x "))).2.2 (ofStr " x ") rfl rfl⟩

/-- C6 counterexample: after a zero-exit run, an existing but empty
transcript artifact is silently returned as an empty transcript instead
of raising an error. -/
theorem empty_artifact_returned_as_transcript :
    transcribe_with_whisper 0 (ofStr "") (some (ofStr "")) = Except.ok (ofStr "") := by
  decide

/-- C7 (amended): the truncation placeholder `"... [truncated]"` inserted
by the summarization step is NOT one of the sanitizer's start markers:
it differs from `"(truncated)"` and contains neither `"(truncated)"` nor
either `start_prefixes` entry, so it is not consumed by start-of-payload
detection. -/
theorem placeholder_not_a_start_marker :
    truncation_placeholder ≠ start_marker1 ∧
    containsSub truncation_placeholder start_marker1 = false ∧
    containsSub truncation_placeholder startPre1 = false ∧
    containsSub truncation_placeholder startPre2 = false := by
  decide

/-- C7 counterexample: a text carrying the truncation placeholder passes
through the sanitizer with the placeholder surviving in the payload,
contradicting the claim that the marker is consumed during
sanitization. -/
theorem placeholder_survives_sanitization :
    clean_llama_output (ofStr "A ... [truncated] B") (ofStr "zz")
      = ofStr "A ... [truncated] B" ∧
    containsSub (clean_llama_output (ofStr "A ... [truncated] B") (ofStr "zz"))
      truncation_placeholder = true := by
  decide

/-- C8: every job of the queue is processed: the outer loop emits one
event per job, and a job whose pipeline raises any of the job-scoped
errors produces a recorded failure event at its position while the loop
continues with the remaining jobs. -/
theorem loop_processes_every_job (sh : Str → Str) (jobs : List (Nat × ExtBehavior)) :
    (process_all_jobs sh jobs).length = jobs.length ∧
    ∀ (i : Nat) (jb : Nat × ExtBehavior) (e : JobErr), jobs[i]? = some jb →
      (runJob sh jb.1 jb.2).result = Except.error e →
      (process_all_jobs sh jobs)[i]? = some (LoopEvent.failed jb.1 e) := by
  constructor
  · simp [process_all_jobs]
  · intro i jb e hget hres
    simp [process_all_jobs, List.getElem?_map, hget, hres]

/-- C8 witness: a concrete three-job queue whose middle job fails in the
transcription engine; all three jobs are processed and the failure is
recorded at position 1. -/
theorem loop_processes_every_job_w :
    (process_all_jobs id demoJobs).length = demoJobs.length ∧
    (process_all_jobs id demoJobs)[1]?
      = some (LoopEvent.failed 2 (JobErr.whisperFailed (ofStr "boom"))) :=
  ⟨(loop_processes_every_job id demoJobs).1,
   (loop_processes_every_job id demoJobs).2 1 (2, badWhisperBeh)
     (JobErr.whisperFailed (ofStr "boom")) (by decide) (by decide)⟩

/-- C9 (amended): only the raw download is deleted, and only after a
successful conversion; the converted WAV persists after the job ends on
every path that reaches it, and when the conversion fails even the raw
download remains. -/
theorem leftover_files (sh : Str → Str) (row : Nat) (b : ExtBehavior)
    (h1 : b.downloadOk = true) :
    (b.transcodeOk = true → FileRef.wav row ∈ (runJob sh row b).files) ∧
    (b.transcodeOk = false → FileRef.raw row ∈ (runJob sh row b).files) := by
  constructor <;> intro h2 <;>
    simp only [runJob, h1, h2, if_true, download_audio, List.cons_append,
      List.nil_append, List.erase_cons_head]
  · split
    · simp
    · split
      · simp
      · split <;> simp
  · simp

/-- C9 witness: the amended claim at concrete jobs — a fully successful
one (the WAV remains) and one whose conversion fails (the raw download
remains). -/
theorem leftover_files_w :
    FileRef.wav 5 ∈ (runJob id 5 okBeh).files ∧
    FileRef.raw 6 ∈ (runJob id 6 badTranscodeBeh).files :=
  ⟨(leftover_files id 5 okBeh rfl).1 rfl,
   (leftover_files id 6 badTranscodeBeh rfl).2 rfl⟩

/-- C9 counterexample: a job in which every step succeeds ends with the
converted WAV and the transcript artifact still on disk, contradicting
guaranteed deletion on every exit path. -/
theorem wav_file_persists :
    (runJob id 1 okBeh).result = Except.ok (ofStr "hi", ofStr "Et resumé.") ∧
    FileRef.wav 1 ∈ (runJob id 1 okBeh).files ∧
    FileRef.txt 1 ∈ (runJob id 1 okBeh).files := by
  decide

/-- C10: `extract_drive_file_id` is not total: on the bare token
`"abc"` — which contains no `"id="`, no `"/"`-component equal to `"d"`,
and splits into fewer than two `"/"`-parts — the fallback `parts[-2]`
raises `IndexError`. -/
theorem extract_drive_file_id_index_error :
    extract_drive_file_id (ofStr "abc") = Except.error PyErr.indexError ∧
    containsSub (ofStr "abc") (ofStr "id=") = false ∧
    (splitOnSub (ofStr "/") (ofStr "abc")).contains (ofStr "d") = false ∧
    (splitOnSub (ofStr "/") (ofStr "abc")).length < 2 := by
  decide
